import Mathlib

/-!
Verification development for the frame0-mcp-server repository.

The repository contains three generations of the server:
- an early variant (called P0 below) whose core command operation is the
  function requestToFrame0, a plain HTTP POST to a local endpoint;
- two index.ts variants (called V1 and V2 below) whose tool handlers call
  a core operation executeCommand imported from utils.ts.

The shallow embedding below translates the source functions directly.
JSON values are modelled by the inductive type Json; the settlement
behaviour of the underlying HTTP fetch is modelled by FetchOutcome,
including the possibility that the fetch promise never settles (the
server accepts the connection but never responds), since the temporal
claims about timeouts are about exactly that possibility.  The functions
executeCommand, textResult, filterShape, filterPage and convertColor live
in utils.ts / colors.ts, which are not part of the given sources; they
are modelled from the spec where indicated.
-/

/-- Model of a JSON value (a JavaScript structured value). -/
inductive Json where
  | null : Json
  | bool (b : Bool) : Json
  | num (n : Int) : Json
  | str (s : String) : Json
  | arr (items : List Json) : Json
  | obj (fields : List (String × Json)) : Json

/-- Model of JSON.stringify on a JSON value (string escaping is not modelled;
no claim depends on it). -/
def jsonToString : Json → String
  | Json.null => "null"
  | Json.bool b => cond b "true" "false"
  | Json.num n => toString n
  | Json.str s => "\"" ++ s ++ "\""
  | Json.arr items => "[" ++ jsonItemsToString items ++ "]"
  | Json.obj fields => "\x7b" ++ jsonFieldsToString fields ++ "\x7d"
where
  /-- Comma-separated serialization of array items. -/
  jsonItemsToString : List Json → String
    | [] => ""
    | [x] => jsonToString x
    | x :: y :: xs => jsonToString x ++ "," ++ jsonItemsToString (y :: xs)
  /-- Comma-separated serialization of object fields. -/
  jsonFieldsToString : List (String × Json) → String
    | [] => ""
    | [(k, v)] => "\"" ++ k ++ "\":" ++ jsonToString v
    | (k, v) :: f :: fs =>
        "\"" ++ k ++ "\":" ++ jsonToString v ++ "," ++ jsonFieldsToString (f :: fs)

/-- First binding of a key in an object field list (JavaScript object keys are
unique, so the first binding is the binding). -/
def lookupField : List (String × Json) → String → Option Json
  | [], _ => none
  | (k, v) :: fs, key => if k = key then some v else lookupField fs key

/-- Model of reading a property of a JavaScript value: on objects it is field
lookup, on any other non-null value it yields undefined (here: none). -/
def getField (j : Json) (key : String) : Option Json :=
  match j with
  | Json.obj fs => lookupField fs key
  | _ => none

/-- Two-step field access, j.k1.k2. -/
def getField2 (j : Json) (k1 k2 : String) : Option Json :=
  match getField j k1 with
  | some v => getField v k2
  | none => none

/-- Updating one field of a field list, keeping the position of an existing
key and appending a new key at the end: the semantics of a JavaScript object
literal that spreads an object and then writes the key. -/
def setField : List (String × Json) → String → Json → List (String × Json)
  | [], key, v => [(key, v)]
  | (k, w) :: fs, key, v =>
      if k = key then (key, v) :: fs else (k, w) :: setField fs key v

/-- Model of the object literal spread-then-override pattern: the fields of
j with the given key overridden (an object always results). -/
def objSet (j : Json) (key : String) (v : Json) : Json :=
  match j with
  | Json.obj fs => Json.obj (setField fs key v)
  | _ => Json.obj [(key, v)]

theorem lookupField_setField_same (fs : List (String × Json)) (key : String) (v : Json) :
    lookupField (setField fs key v) key = some v := by
  induction fs with
  | nil => simp [setField, lookupField]
  | cons kv fs ih =>
      obtain ⟨k, w⟩ := kv
      by_cases h : k = key
      · simp [setField, lookupField, h]
      · simp [setField, lookupField, h, ih]

theorem lookupField_setField_ne (fs : List (String × Json)) (key key2 : String) (v : Json)
    (h : key2 ≠ key) : lookupField (setField fs key v) key2 = lookupField fs key2 := by
  induction fs with
  | nil => simp [setField, lookupField, Ne.symm h]
  | cons kv fs ih =>
      obtain ⟨k, w⟩ := kv
      by_cases hk : k = key
      · subst hk
        simp [setField, lookupField, Ne.symm h]
      · simp [setField, lookupField, hk, ih]

theorem getField_objSet_same (j : Json) (key : String) (v : Json) :
    getField (objSet j key v) key = some v := by
  cases j <;> simp [objSet, getField, lookupField, lookupField_setField_same]

theorem getField_objSet_ne (j : Json) (key key2 : String) (v : Json) (h : key2 ≠ key) :
    getField (objSet j key v) key2 = getField j key2 := by
  cases j <;> simp [objSet, getField, lookupField, Ne.symm h,
    lookupField_setField_ne _ _ _ _ h]

/-! ## The P0 core command operation: requestToFrame0 (src/unnamed/part_000)

The source is an async function that performs a single fetch and awaits it:

  async function requestToFrame0(slug, params = ()) (
    const res = await fetch(URL + slug, ( method: "POST", ..., body: JSON.stringify(params) ));
    if (!res.ok) ( throw new Error("Failed to create rectangle"); )
    const data = await res.json();
    return data;
  )

Its settlement is a function of the settlement of the underlying fetch
promise, which may resolve with a response, reject, or never settle
(the code installs no deadline timer and no abort signal).
-/

/-- The base URL constant of part_000. -/
def URL : String := "http://localhost:3000"

/-- The settlement behaviour of the underlying fetch (and the subsequent
res.json() on the ok path): the promise resolves with a response whose ok
flag and decoded body are given, rejects with an error (a transport error or
an OS-level timeout), or never settles at all. -/
inductive FetchOutcome where
  | resp (ok : Bool) (body : Except String Json) : FetchOutcome
  | fail (err : String) : FetchOutcome
  | hang : FetchOutcome

/-- One outbound HTTP message as described by the fetch call: the URL, the
method, and the value passed to JSON.stringify as the body. -/
structure HttpRequest where
  url : String
  method : String
  body : Json

/-- Translation of requestToFrame0.  The first component is the settlement of
the call: none when the call never settles (the awaited fetch never settles),
some (Except.ok data) on a decoded ok response, some (Except.error e) when an
error is thrown or propagated.  The second component is the list of outbound
messages the call produces. -/
def requestToFrame0 (slug : String) (params : Json) (o : FetchOutcome) :
    Option (Except String Json) × List HttpRequest :=
  (match o with
   | FetchOutcome.hang => none
   | FetchOutcome.fail e => some (Except.error e)
   | FetchOutcome.resp ok body =>
       if ok then
         match body with
         | Except.ok data => some (Except.ok data)
         | Except.error e => some (Except.error e)
       else
         some (Except.error "Failed to create rectangle"),
   [HttpRequest.mk (URL ++ slug) "POST" params])

/-! ## Tool results and the collaborators modelled from the spec -/

/-- A text reply of a tool handler (the content object
( content: [( type: "text", text )] ) returned by every handler). -/
structure ToolResult where
  text : String

/-- Modelled from the spec: textResult is the uniform text-formatting step of
utils.ts (not under src/) — it wraps a string as the text reply of a tool. -/
def textResult (s : String) : ToolResult :=
  ToolResult.mk s

/-- Modelled from the spec: the error taxonomy surfaced by the bridge
operation executeCommand of utils.ts (not under src/). -/
inductive Frame0Error where
  | transportUnavailable : Frame0Error
  | timeout : Frame0Error
  | applicationError (msg : String) : Frame0Error
  | connectionLost : Frame0Error
  | duplicateId : Frame0Error

/-- Modelled from the spec: the string interpolation of a thrown failure in
the handlers' catch blocks (backtick-Failed to ...: dollar-error) — each
failure renders as a human-readable message. -/
def errString : Frame0Error → String
  | Frame0Error.transportUnavailable => "Error: TransportUnavailable"
  | Frame0Error.timeout => "Error: Timeout"
  | Frame0Error.applicationError m => "Error: " ++ m
  | Frame0Error.connectionLost => "Error: ConnectionLost"
  | Frame0Error.duplicateId => "Error: DuplicateId"

/-- One call to the core operation executeCommand: the command name and the
params value passed with it. -/
structure CmdCall where
  name : String
  params : Json

/-- Modelled from the spec: executeCommand(name, params) -> result (utils.ts
is not under src/) either returns a payload or throws a Frame0Error.  A
handler invocation's interaction with the bridge is modelled by a response
oracle giving the outcome of its k-th executeCommand call; the handler
records its calls in order. -/
def CmdEnv : Type := Nat → Except Frame0Error Json

/-- Modelled from the spec: convertColor of colors.ts (not under src/)
translates a symbolic palette color name into the concrete value the
controlled application expects; the concrete mapping is unknown and no claim
depends on it, so the name is carried through, and an absent color becomes
null. -/
def convertColor : Option String → Json
  | none => Json.null
  | some c => Json.str c

/-- Modelled from the spec: the set of noisy/internal field names that
filterShape / filterPage strip from returned payloads before reporting
(utils.ts is not under src/, so a representative list is used; the claims
depend only on stripping being applied or not, never on the exact list). -/
def noisyFields : List String := ["parent", "reference"]

/-- Modelled from the spec: filterShape strips the noisy/internal fields from
a returned shape payload before it is reported. -/
def filterShape : Json → Json
  | Json.obj fs => Json.obj (fs.filter (fun kv => ! noisyFields.contains kv.1))
  | j => j

/-- Modelled from the spec: filterPage strips the noisy/internal fields from
a returned page payload before it is reported. -/
def filterPage : Json → Json
  | Json.obj fs => Json.obj (fs.filter (fun kv => ! noisyFields.contains kv.1))
  | j => j

/-- An absent optional string argument is undefined in the source and is
dropped by JSON.stringify; it is modelled as null here. -/
def optStr : Option String → Json
  | none => Json.null
  | some s => Json.str s

/-- An absent optional corner-radius array, modelled like optStr. -/
def optCorners : Option (List Int) → Json
  | none => Json.null
  | some xs => Json.arr (xs.map Json.num)

/-! ## The first index.ts variant (V1) -/

/-- The frame type enumeration of the V1 create_frame tool. -/
inductive FrameType where
  | phone | tablet | desktop | browser | watch | tv

/-- The FRAME_NAME table of V1 create_frame. -/
def FRAME_NAME : FrameType → String
  | FrameType.phone => "Phone"
  | FrameType.tablet => "Tablet"
  | FrameType.desktop => "Desktop"
  | FrameType.browser => "Browser"
  | FrameType.watch => "Watch"
  | FrameType.tv => "TV"

/-- The FRAME_SIZE table of V1 create_frame: width and height. -/
def FRAME_SIZE : FrameType → Int × Int
  | FrameType.phone => (320, 690)
  | FrameType.tablet => (520, 790)
  | FrameType.desktop => (800, 600)
  | FrameType.browser => (800, 600)
  | FrameType.watch => (198, 242)
  | FrameType.tv => (960, 570)

/-- The FRAME_HEADER_HEIGHT table of V1 create_frame. -/
def FRAME_HEADER_HEIGHT : FrameType → Int
  | FrameType.phone => 0
  | FrameType.tablet => 0
  | FrameType.desktop => 32
  | FrameType.browser => 76
  | FrameType.watch => 0
  | FrameType.tv => 0

/-- The first executeCommand call of V1 create_frame: the
shape:create-shape-from-library-by-query command with the header-adjusted
top and height in its shapeProps. -/
def createFrameCmd (ft : FrameType) (nm : String) (l t : Int) (fc : Option String) : CmdCall :=
  CmdCall.mk "shape:create-shape-from-library-by-query" (Json.obj
    [("query", Json.str (FRAME_NAME ft ++ "&@Frame")),
     ("shapeProps", Json.obj
       [("name", Json.str nm),
        ("left", Json.num l),
        ("top", Json.num (t - FRAME_HEADER_HEIGHT ft)),
        ("width", Json.num (FRAME_SIZE ft).1),
        ("height", Json.num ((FRAME_SIZE ft).2 + FRAME_HEADER_HEIGHT ft)),
        ("fillColor", convertColor fc)])])

/-- The object V1 create_frame reports: the filtered payload spread into a
literal whose top and height keys are then overridden with the
header-adjusted values. -/
def reportedFrameObj (ft : FrameType) (t : Int) (data : Json) : Json :=
  objSet (objSet (filterShape data) "top" (Json.num (t - FRAME_HEADER_HEIGHT ft)))
    "height" (Json.num ((FRAME_SIZE ft).2 + FRAME_HEADER_HEIGHT ft))

/-- Translation of the V1 create_frame handler: three sequential
executeCommand calls inside a try block whose catch returns a
Failed-to-create-frame text result; on success the filtered, header-adjusted
payload is reported.  The second component lists the executeCommand calls
made, in order. -/
def createFrameV1 (ft : FrameType) (nm : String) (l t : Int) (fc : Option String)
    (env : CmdEnv) : Except Frame0Error ToolResult × List CmdCall :=
  let c0 := createFrameCmd ft nm l t fc
  match env 0 with
  | Except.error e =>
      (Except.ok (textResult ("Failed to create frame: " ++ errString e)), [c0])
  | Except.ok shapeId =>
    let c1 := CmdCall.mk "view:fit-to-screen" Json.null
    match env 1 with
    | Except.error e =>
        (Except.ok (textResult ("Failed to create frame: " ++ errString e)), [c0, c1])
    | Except.ok _ =>
      let c2 := CmdCall.mk "shape:get-shape" (Json.obj [("shapeId", shapeId)])
      match env 2 with
      | Except.error e =>
          (Except.ok (textResult ("Failed to create frame: " ++ errString e)), [c0, c1, c2])
      | Except.ok data =>
          (Except.ok (textResult ("Created frame: " ++
              jsonToString (reportedFrameObj ft t data))), [c0, c1, c2])

/-- The first executeCommand call of V1 create_rectangle. -/
def createRectangleCmd (nm : String) (parentId : Option String) (l t w h : Int)
    (fc sc : Option String) (cor : Option (List Int)) : CmdCall :=
  CmdCall.mk "shape:create-shape" (Json.obj
    [("type", Json.str "Rectangle"),
     ("shapeProps", Json.obj
       [("name", Json.str nm),
        ("left", Json.num l),
        ("top", Json.num t),
        ("width", Json.num w),
        ("height", Json.num h),
        ("fillColor", convertColor fc),
        ("strokeColor", convertColor sc),
        ("corners", optCorners cor)]),
     ("parentId", optStr parentId)])

/-- Translation of the V1 create_rectangle handler: two sequential
executeCommand calls inside a try block; the catch returns a
Failed-to-create-rectangle text result. -/
def createRectangleV1 (nm : String) (parentId : Option String) (l t w h : Int)
    (fc sc : Option String) (cor : Option (List Int)) (env : CmdEnv) :
    Except Frame0Error ToolResult × List CmdCall :=
  let c0 := createRectangleCmd nm parentId l t w h fc sc cor
  match env 0 with
  | Except.error e =>
      (Except.ok (textResult ("Failed to create rectangle: " ++ errString e)), [c0])
  | Except.ok shapeId =>
    let c1 := CmdCall.mk "shape:get-shape" (Json.obj [("shapeId", shapeId)])
    match env 1 with
    | Except.error e =>
        (Except.ok (textResult ("Failed to create rectangle: " ++ errString e)), [c0, c1])
    | Except.ok data =>
        (Except.ok (textResult ("Created rectangle: " ++
            jsonToString (filterShape data))), [c0, c1])

/-- The edit:delete call of the V1 delete_shape handler. -/
def deleteShapeCmdV1 (shapeId : String) : CmdCall :=
  CmdCall.mk "edit:delete" (Json.obj [("shapeIdArray", Json.arr [Json.str shapeId])])

/-- Translation of the V1 delete_shape handler: one executeCommand call of
edit:delete with a singleton shapeIdArray. -/
def deleteShapeV1 (shapeId : String) (env : CmdEnv) :
    Except Frame0Error ToolResult × List CmdCall :=
  match env 0 with
  | Except.error e =>
      (Except.ok (textResult ("Failed to delete shape: " ++ errString e)),
       [deleteShapeCmdV1 shapeId])
  | Except.ok _ =>
      (Except.ok (textResult ("Deleted shape of id: " ++ shapeId)),
       [deleteShapeCmdV1 shapeId])

/-- The shape:update-shape call of the V2 delete_shape handler (the second
index.ts variant sends an update command, not edit:delete). -/
def deleteShapeCmdV2 (shapeId : String) : CmdCall :=
  CmdCall.mk "shape:update-shape" (Json.obj [("shapeIdArray", Json.arr [Json.str shapeId])])

/-- Translation of the V2 delete_shape handler: one executeCommand call of
shape:update-shape with a singleton shapeIdArray, reporting deletion on
success. -/
def deleteShapeV2 (shapeId : String) (env : CmdEnv) :
    Except Frame0Error ToolResult × List CmdCall :=
  match env 0 with
  | Except.error e =>
      (Except.ok (textResult ("Failed to delete shape: " ++ errString e)),
       [deleteShapeCmdV2 shapeId])
  | Except.ok _ =>
      (Except.ok (textResult ("Deleted shape of id: " ++ shapeId)),
       [deleteShapeCmdV2 shapeId])

/-- The children value the V1 get_all_pages handler maps over: the payload's
children field when it is an array, and the empty array otherwise (the
Array.isArray guard of the source). -/
def childrenArr (d : Json) : List Json :=
  match getField d "children" with
  | some (Json.arr xs) => xs
  | _ => []

/-- The message of the TypeError that reading the children property of a null
payload raises in the source (it is caught by the catch block); the exact
runtime wording is abbreviated. -/
def typeErrorChildren : String := "TypeError: cannot read children of null"

/-- Translation of the V1 get_all_pages handler: one doc:get call; the
children field of the payload is normalised to an array, filterPage is mapped
over it and the result is serialized.  A null payload makes the property read
throw, which the catch block converts to a failure text. -/
def getAllPagesV1 (exportShapes : Bool) (env : CmdEnv) :
    Except Frame0Error ToolResult × List CmdCall :=
  let c0 := CmdCall.mk "doc:get"
    (Json.obj [("exportPages", Json.bool true), ("exportShapes", Json.bool exportShapes)])
  match env 0 with
  | Except.error e =>
      (Except.ok (textResult ("Failed to get page data: " ++ errString e)), [c0])
  | Except.ok docData =>
    match docData with
    | Json.null =>
        (Except.ok (textResult ("Failed to get page data: " ++ typeErrorChildren)), [c0])
    | d =>
        (Except.ok (textResult ("The all pages data: " ++
            jsonToString (Json.arr ((childrenArr d).map filterPage)))), [c0])

/-! ## The P0 create_frame handler (src/unnamed/part_000)

The handler awaits requestToFrame0 and returns the raw stringified payload;
it has no try/catch block, so a failure of requestToFrame0 propagates out of
the handler, and the payload is not passed through any field-stripping step.
-/

/-- Translation of the P0 create_frame handler.  The first component is the
settlement of the handler invocation: none when the core call never settles,
some (Except.error e) when the failure of requestToFrame0 propagates out of
the handler, some (Except.ok r) when the handler returns the text reply r.
The second component lists the outbound HTTP messages. -/
def createFrameP0 (nm : String) (l t w h : Int) (o : FetchOutcome) :
    Option (Except String ToolResult) × List HttpRequest :=
  let r := requestToFrame0 "/create_shape_from_library"
    (Json.obj [("query", Json.str (nm ++ "&@Frame")), ("left", Json.num l),
               ("top", Json.num t), ("width", Json.num w), ("height", Json.num h)]) o
  (match r.1 with
   | none => none
   | some (Except.error e) => some (Except.error e)
   | some (Except.ok data) => some (Except.ok (textResult (jsonToString data))),
   r.2)

/-! ## Claims C1 to C4: the core command operation requestToFrame0 -/

/-- Claim C1, counterexample: the claim says every call to the core command
operation settles exactly once and never fails to settle; but when the
underlying fetch never settles (the server accepts the connection and never
answers), requestToFrame0 — which merely awaits the fetch and installs no
deadline — produces no settlement at all at this concrete input. -/
theorem requestToFrame0_hang_never_settles :
    (requestToFrame0 "/get_shape" (Json.obj []) FetchOutcome.hang).1 = none := rfl

/-- Claim C1, amended: every call to requestToFrame0 settles at most once —
its settlement is a single value, either the decoded response payload or a
raised failure — and it settles exactly once whenever the underlying fetch
settles; it fails to settle precisely when the fetch never settles. -/
theorem requestToFrame0_settles_iff_fetch_settles :
    ∀ (slug : String) (params : Json) (o : FetchOutcome),
      ((requestToFrame0 slug params o).1 = none ↔ o = FetchOutcome.hang) := by
  intro slug params o
  cases o with
  | resp ok body => cases ok <;> cases body <;> simp [requestToFrame0]
  | fail e => simp [requestToFrame0]
  | hang => simp [requestToFrame0]

/-- Claim C2, code evaluated at the failing input: when no response ever
arrives for the request, the call does not settle with a Timeout failure —
it does not settle at all, because requestToFrame0 arranges no deadline
timer and no abort signal; the caller hangs forever, which the spec says
must not happen. -/
theorem requestToFrame0_no_deadline_hangs :
    (requestToFrame0 "/update_shape" (Json.obj [("id", Json.str "s1")])
        FetchOutcome.hang).1 = none := rfl

/-- Claim C3, code evaluated at the failing input: on a non-ok response whose
payload carries the message "not found", the failure raised is the fixed
string "Failed to create rectangle" — the application-reported message is
never read, and the same fixed message is raised for any other non-ok
response of any command. -/
theorem requestToFrame0_fixed_error_message :
    (requestToFrame0 "/get_shape" (Json.obj [("shapeId", Json.str "missing")])
        (FetchOutcome.resp false (Except.ok (Json.obj [("message", Json.str "not found")])))).1
      = some (Except.error "Failed to create rectangle") ∧
    (requestToFrame0 "/create_shape" (Json.obj [])
        (FetchOutcome.resp false (Except.ok (Json.obj [("message", Json.str "other error")])))).1
      = some (Except.error "Failed to create rectangle") :=
  ⟨rfl, rfl⟩

/-- Claim C4, counterexample: the single outbound message of a call does not
contain the correlation id and the command name as fields of its encoded
body — at this concrete input the body is exactly the params value and has
neither an id field nor a commandName field (the command is identified by
the URL path instead). -/
theorem requestToFrame0_message_lacks_id :
    (requestToFrame0 "/create_shape" (Json.obj [("left", Json.num 10)])
        (FetchOutcome.resp true (Except.ok Json.null))).2
      = [HttpRequest.mk (URL ++ "/create_shape") "POST" (Json.obj [("left", Json.num 10)])] ∧
    getField (Json.obj [("left", Json.num 10)]) "id" = none ∧
    getField (Json.obj [("left", Json.num 10)]) "commandName" = none :=
  ⟨rfl, rfl, rfl⟩

/-- Claim C4, amended: every call to requestToFrame0 sends exactly one
outbound message — an HTTP POST to the base URL extended by the command
slug, whose body is exactly the JSON-encoded params — and the operation
never retries the send, whatever the outcome of the fetch. -/
theorem requestToFrame0_single_send_no_retry :
    ∀ (slug : String) (params : Json) (o : FetchOutcome),
      (requestToFrame0 slug params o).2 = [HttpRequest.mk (URL ++ slug) "POST" params] :=
  fun _ _ _ => rfl

/-! ## Claims C5 to C7: the tool handlers -/

/-- Whether an executeCommand outcome is a success. -/
def isOkE (e : Except Frame0Error Json) : Bool :=
  match e with
  | Except.ok _ => true
  | Except.error _ => false

/-- Claim C5, counterexample: a fully successful invocation of the V1
create_frame handler calls executeCommand three times (create the frame
shape, fit the view to the screen, get the shape back), not exactly once as
the claim states. -/
theorem createFrameV1_three_calls :
    ((createFrameV1 FrameType.browser "Home" 0 0 none
        (fun _ => Except.ok (Json.obj []))).2).length = 3 ∧
    ¬ ((createFrameV1 FrameType.browser "Home" 0 0 none
        (fun _ => Except.ok (Json.obj []))).2).length = 1 :=
  ⟨rfl, by decide⟩

/-- Claim C5, amended: each tool handler interacts with the core only through
executeCommand and wraps every outcome with the uniform text-formatting step,
but a single invocation may call executeCommand more than once: create_frame
calls it three times when all calls succeed (and at most three times in any
run), create_rectangle twice. -/
theorem handlers_single_core_operation :
    ∀ (env : CmdEnv) (ft : FrameType) (nm : String) (pid : Option String)
      (l t w h : Int) (fc sc : Option String) (cor : Option (List Int)),
      ((∃ s, (createFrameV1 ft nm l t fc env).1 = Except.ok (textResult s)) ∧
        (createFrameV1 ft nm l t fc env).2.length ≤ 3 ∧
        (isOkE (env 0) = true → isOkE (env 1) = true → isOkE (env 2) = true →
          (createFrameV1 ft nm l t fc env).2.length = 3)) ∧
      ((∃ s, (createRectangleV1 nm pid l t w h fc sc cor env).1 = Except.ok (textResult s)) ∧
        (createRectangleV1 nm pid l t w h fc sc cor env).2.length ≤ 2 ∧
        (isOkE (env 0) = true → isOkE (env 1) = true →
          (createRectangleV1 nm pid l t w h fc sc cor env).2.length = 2)) := by
  intro env ft nm pid l t w h fc sc cor
  rcases h0 : env 0 with e0 | v0 <;> rcases h1 : env 1 with e1 | v1 <;>
    rcases h2 : env 2 with e2 | v2 <;>
    simp [createFrameV1, createRectangleV1, isOkE, h0, h1, h2]

/-- Claim C5, witness: a concrete fully successful create_frame invocation
makes exactly three executeCommand calls. -/
theorem handlers_single_core_operation_witness :
    (createFrameV1 FrameType.phone "Home" 0 0 none
        (fun _ => Except.ok (Json.obj []))).2.length = 3 :=
  ((handlers_single_core_operation (fun _ => Except.ok (Json.obj [])) FrameType.phone
      "Home" none 0 0 100 100 none none none).1.2.2) rfl rfl rfl

/-- Claim C6, counterexample: the P0 create_frame handler (part_000) has no
try/catch block, so when the core operation fails the failure propagates out
of the handler instead of being converted into a reported failure message —
at this concrete input the handler settles with the raw error, not with a
text result. -/
theorem createFrameP0_propagates_error :
    (createFrameP0 "Phone" 0 0 320 690 (FetchOutcome.fail "ECONNREFUSED")).1
      = some (Except.error "ECONNREFUSED") := rfl

/-- Claim C6, amended: the index.ts tool handlers convert every failure
raised by executeCommand into a human-readable Failed-to text result and
never let it propagate out of the handler; the part_000 variant's handlers,
which have no try/catch, let the failure of requestToFrame0 propagate out of
the handler. -/
theorem handlers_convert_failures :
    ∀ (env : CmdEnv) (ft : FrameType) (nm : String) (l t w h : Int)
      (fc : Option String) (e : Frame0Error) (es : String),
      (∃ s, (createFrameV1 ft nm l t fc env).1 = Except.ok (textResult s)) ∧
      (env 0 = Except.error e →
        (createFrameV1 ft nm l t fc env).1 =
          Except.ok (textResult ("Failed to create frame: " ++ errString e))) ∧
      (createFrameP0 nm l t w h (FetchOutcome.fail es)).1 = some (Except.error es) := by
  intro env ft nm l t w h fc e es
  refine ⟨?_, fun he => by simp [createFrameV1, he], rfl⟩
  rcases h0 : env 0 with e0 | v0 <;> rcases h1 : env 1 with e1 | v1 <;>
    rcases h2 : env 2 with e2 | v2 <;>
    simp [createFrameV1, h0, h1, h2]

/-- Claim C6, witness: a concrete timed-out create_frame invocation is
reported as a failure text, not thrown. -/
theorem handlers_convert_failures_witness :
    (createFrameV1 FrameType.phone "Home" 0 0 none
        (fun _ => Except.error Frame0Error.timeout)).1
      = Except.ok (textResult ("Failed to create frame: " ++ errString Frame0Error.timeout)) :=
  (handlers_convert_failures (fun _ => Except.error Frame0Error.timeout) FrameType.phone
      "Home" 0 0 320 690 none Frame0Error.timeout "x").2.1 rfl

/-- Claim C7, counterexample: the P0 create_frame handler (part_000) reports
the raw payload — at this concrete input its reported text is the
serialization of the unfiltered payload, which still carries an internal
field and therefore differs from the serialization of the filtered
payload. -/
theorem createFrameP0_reports_unfiltered :
    (createFrameP0 "Phone" 0 0 320 690
        (FetchOutcome.resp true (Except.ok
          (Json.obj [("id", Json.str "s1"), ("parent", Json.str "p0")])))).1
      = some (Except.ok (textResult (jsonToString
          (Json.obj [("id", Json.str "s1"), ("parent", Json.str "p0")])))) ∧
    jsonToString (Json.obj [("id", Json.str "s1"), ("parent", Json.str "p0")])
      ≠ jsonToString (filterShape (Json.obj [("id", Json.str "s1"), ("parent", Json.str "p0")])) :=
  ⟨rfl, by decide⟩

/-- Claim C7, amended: in the index.ts variants the reported payload passes
through the field-stripping step before serialization — the V1 create_frame
handler reports the filterShape image of the payload (with the adjusted top
and height written over it) — while the part_000 handlers serialize the raw
payload with no stripping. -/
theorem createFrameV1_filters_before_reporting :
    ∀ (env : CmdEnv) (ft : FrameType) (nm : String) (l t w h : Int) (fc : Option String)
      (sid u data raw : Json),
      (env 0 = Except.ok sid → env 1 = Except.ok u → env 2 = Except.ok data →
        (createFrameV1 ft nm l t fc env).1 = Except.ok (textResult ("Created frame: " ++
          jsonToString (objSet (objSet (filterShape data) "top"
              (Json.num (t - FRAME_HEADER_HEIGHT ft)))
            "height" (Json.num ((FRAME_SIZE ft).2 + FRAME_HEADER_HEIGHT ft)))))) ∧
      (createFrameP0 nm l t w h (FetchOutcome.resp true (Except.ok raw))).1
        = some (Except.ok (textResult (jsonToString raw))) := by
  intro env ft nm l t w h fc sid u data raw
  refine ⟨fun h0 h1 h2 => ?_, rfl⟩
  simp [createFrameV1, h0, h1, h2, reportedFrameObj]

/-- Claim C7, witness: a concrete successful create_frame invocation reports
the filtered payload. -/
theorem createFrameV1_filters_before_reporting_witness :
    (createFrameV1 FrameType.phone "Home" 0 0 none
        (fun _ => Except.ok (Json.obj [("parent", Json.str "p0")]))).1
      = Except.ok (textResult ("Created frame: " ++
          jsonToString (objSet (objSet (filterShape (Json.obj [("parent", Json.str "p0")])) "top"
              (Json.num (0 - FRAME_HEADER_HEIGHT FrameType.phone)))
            "height" (Json.num ((FRAME_SIZE FrameType.phone).2 +
              FRAME_HEADER_HEIGHT FrameType.phone))))) :=
  (createFrameV1_filters_before_reporting (fun _ => Except.ok (Json.obj [("parent", Json.str "p0")]))
      FrameType.phone "Home" 0 0 320 690 none (Json.obj [("parent", Json.str "p0")])
      (Json.obj [("parent", Json.str "p0")]) (Json.obj [("parent", Json.str "p0")])
      (Json.obj [("parent", Json.str "p0")])).1 rfl rfl rfl

/-! ## Claims C8 to C10 -/

/-- Claim C8: the V1 create_frame handler sends the shape-creation command
with top equal to the requested top minus the frame-type header height
(phone, tablet, watch, tv: 0; desktop: 32; browser: 76) and height equal to
the catalogued frame height plus that header height (browser: 600 + 76 =
676), and the reported object carries these adjusted top and height values
whatever top and height the shape:get-shape payload contains. -/
theorem createFrame_header_arithmetic :
    ∀ (env : CmdEnv) (ft : FrameType) (nm : String) (l t : Int) (fc : Option String)
      (sid u data : Json),
      ((createFrameV1 ft nm l t fc env).2.head? = some (createFrameCmd ft nm l t fc)) ∧
      getField2 (createFrameCmd ft nm l t fc).params "shapeProps" "top"
        = some (Json.num (t - FRAME_HEADER_HEIGHT ft)) ∧
      getField2 (createFrameCmd ft nm l t fc).params "shapeProps" "height"
        = some (Json.num ((FRAME_SIZE ft).2 + FRAME_HEADER_HEIGHT ft)) ∧
      (FRAME_HEADER_HEIGHT FrameType.phone = 0 ∧ FRAME_HEADER_HEIGHT FrameType.tablet = 0 ∧
        FRAME_HEADER_HEIGHT FrameType.watch = 0 ∧ FRAME_HEADER_HEIGHT FrameType.tv = 0 ∧
        FRAME_HEADER_HEIGHT FrameType.desktop = 32 ∧ FRAME_HEADER_HEIGHT FrameType.browser = 76 ∧
        (FRAME_SIZE FrameType.browser).2 + FRAME_HEADER_HEIGHT FrameType.browser = 676) ∧
      getField (reportedFrameObj ft t data) "top" = some (Json.num (t - FRAME_HEADER_HEIGHT ft)) ∧
      getField (reportedFrameObj ft t data) "height"
        = some (Json.num ((FRAME_SIZE ft).2 + FRAME_HEADER_HEIGHT ft)) ∧
      (env 0 = Except.ok sid → env 1 = Except.ok u → env 2 = Except.ok data →
        (createFrameV1 ft nm l t fc env).1
          = Except.ok (textResult ("Created frame: " ++
              jsonToString (reportedFrameObj ft t data)))) := by
  intro env ft nm l t fc sid u data
  refine ⟨?_, rfl, rfl, ⟨rfl, rfl, rfl, rfl, rfl, rfl, by decide⟩, ?_, ?_,
    fun h0 h1 h2 => by simp [createFrameV1, h0, h1, h2]⟩
  · rcases h0 : env 0 with e0 | v0 <;> rcases h1 : env 1 with e1 | v1 <;>
      rcases h2 : env 2 with e2 | v2 <;> simp [createFrameV1, h0, h1, h2]
  · unfold reportedFrameObj
    rw [getField_objSet_ne _ _ _ _ (by decide), getField_objSet_same]
  · exact getField_objSet_same _ _ _

/-- Claim C8, witness: a concrete successful browser-frame invocation
reports the adjusted object (top 0 - 76, height 600 + 76 = 676) even though
the shape:get-shape payload carries a different top. -/
theorem createFrame_header_arithmetic_witness :
    (createFrameV1 FrameType.browser "Home" 0 0 none
        (fun _ => Except.ok (Json.obj [("top", Json.num 999)]))).1
      = Except.ok (textResult ("Created frame: " ++
          jsonToString (reportedFrameObj FrameType.browser 0
            (Json.obj [("top", Json.num 999)])))) :=
  (createFrame_header_arithmetic (fun _ => Except.ok (Json.obj [("top", Json.num 999)]))
      FrameType.browser "Home" 0 0 none (Json.obj [("top", Json.num 999)])
      (Json.obj [("top", Json.num 999)])
      (Json.obj [("top", Json.num 999)])).2.2.2.2.2.2 rfl rfl rfl

/-- Claim C9: for every object payload returned by the doc:get command, the
V1 get_all_pages handler reports the serialization of the array obtained by
normalising the children field to an array and mapping filterPage over it;
in particular a missing children field, or a children field that is not an
array, yields the reported empty list rather than a thrown error. -/
theorem getAllPages_children_default :
    ∀ (es : Bool) (env : CmdEnv) (fs : List (String × Json)),
      env 0 = Except.ok (Json.obj fs) →
      ((getAllPagesV1 es env).1 = Except.ok (textResult ("The all pages data: " ++
          jsonToString (Json.arr ((childrenArr (Json.obj fs)).map filterPage)))) ∧
        (lookupField fs "children" = none →
          (getAllPagesV1 es env).1 = Except.ok (textResult "The all pages data: []")) ∧
        (∀ s, lookupField fs "children" = some (Json.str s) →
          (getAllPagesV1 es env).1 = Except.ok (textResult "The all pages data: []"))) := by
  intro es env fs h0
  have hmain : (getAllPagesV1 es env).1 = Except.ok (textResult ("The all pages data: " ++
      jsonToString (Json.arr ((childrenArr (Json.obj fs)).map filterPage)))) := by
    simp [getAllPagesV1, h0]
  refine ⟨hmain, fun hn => ?_, fun s hs => ?_⟩
  · rw [hmain]
    have hc : childrenArr (Json.obj fs) = [] := by simp [childrenArr, getField, hn]
    rw [hc]
    rfl
  · rw [hmain]
    have hc : childrenArr (Json.obj fs) = [] := by simp [childrenArr, getField, hs]
    rw [hc]
    rfl

/-- Claim C9, witness: a concrete doc:get payload with no children field is
reported as the empty page list. -/
theorem getAllPages_children_default_witness :
    (getAllPagesV1 false (fun _ => Except.ok (Json.obj [("id", Json.str "doc")]))).1
      = Except.ok (textResult "The all pages data: []") :=
  ((getAllPages_children_default false (fun _ => Except.ok (Json.obj [("id", Json.str "doc")]))
      [("id", Json.str "doc")] rfl).2.1) rfl

/-- Claim C10: every invocation of the V2 delete_shape handler sends exactly
one command, named shape:update-shape, with a singleton shapeIdArray params
object, and on success reports the deletion of the shape id; it never sends
the edit:delete command that the V1 delete_shape handler sends for the same
inputs, so the two variants' delete_shape handlers emit different
commands. -/
theorem deleteShape_variants_divergence :
    ∀ (shapeId : String) (env : CmdEnv),
      (deleteShapeV2 shapeId env).2
        = [CmdCall.mk "shape:update-shape"
            (Json.obj [("shapeIdArray", Json.arr [Json.str shapeId])])] ∧
      (∀ u, env 0 = Except.ok u →
        (deleteShapeV2 shapeId env).1
          = Except.ok (textResult ("Deleted shape of id: " ++ shapeId))) ∧
      "edit:delete" ∉ (deleteShapeV2 shapeId env).2.map CmdCall.name ∧
      (deleteShapeV1 shapeId env).2.map CmdCall.name = ["edit:delete"] ∧
      (deleteShapeV2 shapeId env).2.map CmdCall.name
        ≠ (deleteShapeV1 shapeId env).2.map CmdCall.name := by
  intro shapeId env
  have h2 : (deleteShapeV2 shapeId env).2 = [deleteShapeCmdV2 shapeId] := by
    rcases h0 : env 0 with e | v <;> simp [deleteShapeV2, h0]
  have h1 : (deleteShapeV1 shapeId env).2 = [deleteShapeCmdV1 shapeId] := by
    rcases h0 : env 0 with e | v <;> simp [deleteShapeV1, h0]
  refine ⟨by rw [h2]; rfl, fun u hu => by simp [deleteShapeV2, hu], ?_, by rw [h1]; rfl, ?_⟩
  · rw [h2]
    simp [deleteShapeCmdV2]
  · rw [h1, h2]
    simp [deleteShapeCmdV1, deleteShapeCmdV2]

/-- Claim C10, witness: a concrete successful V2 delete_shape invocation
reports the deleted id. -/
theorem deleteShape_variants_divergence_witness :
    (deleteShapeV2 "s1" (fun _ => Except.ok Json.null)).1
      = Except.ok (textResult ("Deleted shape of id: " ++ "s1")) :=
  (deleteShape_variants_divergence "s1" (fun _ => Except.ok Json.null)).2.1 Json.null rfl
